import Mathlib

/-!
Verification of the arch crate of a microVM hypervisor: the device-type
registry with its versioned binary encoding, the memory layout planner,
the MMIO/interrupt allocator, and the boot-protocol data model.
Shallow embedding of src/arch/src/lib.rs plus spec-modelled parts whose
bodies live in architecture modules outside the given source.
-/

namespace Arch

/-- Guest-physical address, a wrapper over a 64-bit value (vm_memory::GuestAddress),
modelled as a natural number. -/
structure GuestAddress where
  addr : Nat
deriving DecidableEq, Repr

/-- Types of devices that can get attached to this platform (enum DeviceType in
arch/src/lib.rs). The Serial and Rtc variants are gated by cfg(target_arch) to
aarch64; this type models the full variant set of the registry. The Virtio id
field is a 32-bit unsigned integer. -/
inductive DeviceType where
  | Virtio (id : Fin 4294967296)
  | Serial
  | Rtc
  | BootTimer
deriving DecidableEq, Repr

/-- The two build targets the crate supports. -/
inductive TargetArch where
  | x86_64
  | aarch64
deriving DecidableEq, Repr

/-- Which DeviceType variants exist on which build target, mirroring the
cfg(target_arch = "aarch64") gates on Serial and Rtc in the source. -/
def DeviceType.availableOn : DeviceType → TargetArch → Bool
  | .Virtio _, _ => true
  | .BootTimer, _ => true
  | .Serial, .aarch64 => true
  | .Serial, .x86_64 => false
  | .Rtc, .aarch64 => true
  | .Rtc, .x86_64 => false

/-- Structural equality test for DeviceType, modelling the derived PartialEq/Eq. -/
def DeviceType.beq : DeviceType → DeviceType → Bool
  | .Virtio i, .Virtio j => decide (i = j)
  | .Serial, .Serial => true
  | .Rtc, .Rtc => true
  | .BootTimer, .BootTimer => true
  | _, _ => false

/-- Hash for DeviceType, modelling the derived Hash implementation: a function of
the variant discriminant and the field values. -/
def DeviceType.hashVal : DeviceType → Nat
  | .Virtio i => 4 * i.val
  | .Serial => 1
  | .Rtc => 2
  | .BootTimer => 3

/-- A byte on the snapshot wire. -/
abbrev Byte := Fin 256

/-- Schema-version number carried alongside the encoded payload. -/
def SCHEMA_VERSION : Byte := 1

/-- Modelled from the spec: the versioned binary encoding of DeviceType (the
Versionize implementation is generated by a derive macro whose output is not in
the crate source). The encoder writes the schema version, then the variant tag
(Virtio = 0, Serial = 1, Rtc = 2, BootTimer = 3), then for Virtio the 32-bit id
in little-endian byte order. -/
def DeviceType.encode : DeviceType → List Byte
  | .Virtio i =>
      [SCHEMA_VERSION, 0,
       ⟨i.val % 256, by omega⟩,
       ⟨i.val / 256 % 256, by omega⟩,
       ⟨i.val / 65536 % 256, by omega⟩,
       ⟨i.val / 16777216 % 256, by have := i.isLt; omega⟩]
  | .Serial => [SCHEMA_VERSION, 1]
  | .Rtc => [SCHEMA_VERSION, 2]
  | .BootTimer => [SCHEMA_VERSION, 3]

/-- Result of decoding a DeviceType: either a recognized variant, or the explicit
unrecognized outcome carrying the unknown variant tag. -/
inductive DecodedDeviceType where
  | known (d : DeviceType)
  | unrecognized (tag : Byte)
deriving DecidableEq, Repr

/-- Modelled from the spec: the versioned decoder for DeviceType. Reads the
schema version and the variant tag; a tag outside the known set yields the
explicit unrecognized outcome rather than a failure, and none is returned only
for truncated input. -/
def DeviceType.decode : List Byte → Option DecodedDeviceType
  | _v :: t :: rest =>
      if t = 0 then
        match rest with
        | b0 :: b1 :: b2 :: b3 :: _ =>
            some (.known (.Virtio
              ⟨b0.val + 256 * b1.val + 65536 * b2.val + 16777216 * b3.val, by
                have := b0.isLt; have := b1.isLt; have := b2.isLt; have := b3.isLt
                omega⟩))
        | _ => none
      else if t = 1 then some (.known .Serial)
      else if t = 2 then some (.known .Rtc)
      else if t = 3 then some (.known .BootTimer)
      else some (.unrecognized t)
  | _ => none

/-- C1: encoding any DeviceType value and decoding the produced bytes yields the
original value back (round-trip law). -/
theorem DeviceType.decode_encode (d : DeviceType) :
    DeviceType.decode d.encode = some (.known d) := by
  cases d with
  | Virtio i =>
      have hi := i.isLt
      simp only [encode, decode, SCHEMA_VERSION, Option.some.injEq,
        DecodedDeviceType.known.injEq, DeviceType.Virtio.injEq, reduceIte,
        Fin.ext_iff]
      omega
  | Serial => rfl
  | Rtc => rfl
  | BootTimer => rfl

/-- C2: decoding a byte sequence whose variant tag is outside the set known to
this build (a tag minted by a future registry revision) yields the explicit
unrecognized outcome, not a failure of the decode. -/
theorem DeviceType.decode_unknown_tag (v t : Byte) (rest : List Byte)
    (h0 : t ≠ 0) (h1 : t ≠ 1) (h2 : t ≠ 2) (h3 : t ≠ 3) :
    DeviceType.decode (v :: t :: rest) = some (.unrecognized t) := by
  simp only [decode]
  rw [if_neg h0, if_neg h1, if_neg h2, if_neg h3]

/-- Witness for C2 at the concrete future tag 7. -/
theorem DeviceType.decode_unknown_tag_witness :
    DeviceType.decode [Arch.SCHEMA_VERSION, 7] =
      some (.unrecognized 7) :=
  DeviceType.decode_unknown_tag SCHEMA_VERSION 7 []
    (by decide) (by decide) (by decide) (by decide)

/-- C6: the encoding is canonical and deterministic, as encode is a pure
function of the logical value: equal DeviceType values produce identical byte
sequences. -/
theorem DeviceType.encode_canonical (a b : DeviceType) (h : a = b) :
    DeviceType.encode a = DeviceType.encode b := by
  rw [h]

/-- Witness for C6 at a concrete pair of equal values. -/
theorem DeviceType.encode_canonical_witness :
    DeviceType.encode .BootTimer = DeviceType.encode .BootTimer :=
  DeviceType.encode_canonical .BootTimer .BootTimer rfl

/-- C7: DeviceType is a closed tagged variant with exactly the variants
Virtio(u32), Serial, Rtc and BootTimer; Serial and Rtc exist only on the
aarch64 build target while Virtio and BootTimer exist on both; equality is
decidable via the executable beq test; and hashing is consistent with
equality. -/
theorem DeviceType.registry_shape :
    (∀ d : DeviceType,
        (∃ id, d = .Virtio id) ∨ d = .Serial ∨ d = .Rtc ∨ d = .BootTimer) ∧
    (∀ a : TargetArch,
        (DeviceType.availableOn .Serial a = true ↔ a = .aarch64) ∧
        (DeviceType.availableOn .Rtc a = true ↔ a = .aarch64) ∧
        (∀ id, DeviceType.availableOn (.Virtio id) a = true) ∧
        DeviceType.availableOn .BootTimer a = true) ∧
    (∀ a b : DeviceType, a = b ↔ DeviceType.beq a b = true) ∧
    (∀ a b : DeviceType, a = b → DeviceType.hashVal a = DeviceType.hashVal b) := by
  refine ⟨?_, ?_, ?_, ?_⟩
  · intro d
    cases d with
    | Virtio id => exact Or.inl ⟨id, rfl⟩
    | Serial => exact Or.inr (Or.inl rfl)
    | Rtc => exact Or.inr (Or.inr (Or.inl rfl))
    | BootTimer => exact Or.inr (Or.inr (Or.inr rfl))
  · intro a
    cases a <;> simp [DeviceType.availableOn]
  · intro a b
    constructor
    · intro h
      subst h
      cases a with
      | Virtio i => exact decide_eq_true rfl
      | Serial => rfl
      | Rtc => rfl
      | BootTimer => rfl
    · intro h
      cases a <;> cases b <;>
        first
          | rfl
          | exact Bool.noConfusion h
          | exact congrArg DeviceType.Virtio (of_decide_eq_true h)
  · intro a b h
    rw [h]

/-- Witness for C7, discharging the embedded implications and equivalences at
concrete values. -/
theorem DeviceType.registry_shape_witness :
    ((DeviceType.Serial = .Serial) ↔ DeviceType.beq .Serial .Serial = true) ∧
    DeviceType.hashVal .Rtc = DeviceType.hashVal .Rtc ∧
    (DeviceType.availableOn .Serial .aarch64 = true ↔
      TargetArch.aarch64 = .aarch64) :=
  ⟨DeviceType.registry_shape.2.2.1 .Serial .Serial,
   DeviceType.registry_shape.2.2.2 .Rtc .Rtc rfl,
   (DeviceType.registry_shape.2.1 .aarch64).1⟩

/-- Suported boot protocols (enum BootProtocol in arch/src/lib.rs). -/
inductive BootProtocol where
  | LinuxBoot
  | PvhBoot
deriving DecidableEq, Repr

/-- Specifies the entry point address where the guest must start executing code,
and which boot protocol is to be used (struct EntryPoint in arch/src/lib.rs). -/
structure EntryPoint where
  entry_addr : GuestAddress
  protocol : BootProtocol
deriving DecidableEq, Repr

/-- C8: BootProtocol is a closed tag with exactly the two distinct variants
LinuxBoot and PvhBoot, and an EntryPoint is exactly one entry_addr paired with
one protocol: every EntryPoint is its pair of fields, and the pairing is
injective in both components. -/
theorem BootProtocol.entry_point_shape :
    (∀ p : BootProtocol, p = .LinuxBoot ∨ p = .PvhBoot) ∧
    (BootProtocol.LinuxBoot ≠ BootProtocol.PvhBoot) ∧
    (∀ e : EntryPoint, e = ⟨e.entry_addr, e.protocol⟩) ∧
    (∀ (a₁ a₂ : GuestAddress) (p₁ p₂ : BootProtocol),
        EntryPoint.mk a₁ p₁ = EntryPoint.mk a₂ p₂ → a₁ = a₂ ∧ p₁ = p₂) := by
  refine ⟨?_, by decide, ?_, ?_⟩
  · intro p
    cases p with
    | LinuxBoot => exact Or.inl rfl
    | PvhBoot => exact Or.inr rfl
  · intro e
    rfl
  · intro a₁ a₂ p₁ p₂ h
    exact ⟨congrArg EntryPoint.entry_addr h, congrArg EntryPoint.protocol h⟩

/-- Witness for C8, applying the injectivity part at a concrete EntryPoint. -/
theorem BootProtocol.entry_point_shape_witness :
    GuestAddress.mk 0 = GuestAddress.mk 0 ∧
    BootProtocol.LinuxBoot = BootProtocol.LinuxBoot :=
  BootProtocol.entry_point_shape.2.2.2 ⟨0⟩ ⟨0⟩ .LinuxBoot .LinuxBoot rfl

/-- Default (smallest) memory page size for the supported architectures
(const PAGE_SIZE in arch/src/lib.rs). -/
def PAGE_SIZE : Nat := 4096

/-- C9: the crate-level page size constant PAGE_SIZE is exactly 4096 bytes. -/
theorem PAGE_SIZE_value : PAGE_SIZE = 4096 := rfl

/-- The derived Debug formatting of DeviceType, as produced by the Rust derive:
the variant name, with parenthesized field values. -/
def DeviceType.debugFmt : DeviceType → String
  | .Virtio i => "Virtio(" ++ toString i.val ++ ")"
  | .Serial => "Serial"
  | .Rtc => "Rtc"
  | .BootTimer => "BootTimer"

/-- The Display implementation of DeviceType in arch/src/lib.rs, which formats
with the Debug formatter via the {:?} format specifier. -/
def DeviceType.displayFmt (d : DeviceType) : String :=
  d.debugFmt

/-- C10: for every DeviceType value, the Display formatting produces exactly the
Debug formatting of that value, since the Display impl delegates to {:?}. -/
theorem DeviceType.display_eq_debug (d : DeviceType) :
    DeviceType.displayFmt d = DeviceType.debugFmt d := rfl

/-- One mebibyte. -/
def MiB : Nat := 1048576

/-- Modelled from the spec: start of the reserved MMIO hole (MMIO_MEM_START is
re-exported from the architecture layout module, whose source is not given);
the value matches the reserved hole at 3584 MiB used in the spec scenarios. -/
def MMIO_MEM_START : Nat := 3584 * MiB

/-- Modelled from the spec: size of the reserved MMIO hole, 3840 MiB minus
3584 MiB in the spec scenario. -/
def MMIO_MEM_SIZE : Nat := 256 * MiB

/-- Modelled from the spec: the addressable maximum for guest memory on the
modelled architecture: the 64-bit address space minus the reserved hole. -/
def ARCH_MEM_MAX : Nat := 2 ^ 64 - MMIO_MEM_SIZE

/-- A usable region of guest-physical memory: start address and size in bytes. -/
structure MemoryRegion where
  start : Nat
  size : Nat
deriving DecidableEq, Repr

/-- Error taxonomy of the boot-configuration subsystem. -/
inductive ArchError where
  | InvalidMemorySize
  | KernelTooLarge
  | InitrdTooLarge
  | CmdlineTooLarge
  | UnsupportedBootProtocol
  | RegisterSetupFailure
  | ResourceExhausted
  | UnknownDeviceVariant
deriving DecidableEq, Repr

/-- Modelled from the spec: the Memory Layout Planner (arch_memory_regions is
re-exported from the architecture module, whose source is not given). Rejects a
size that is zero, not page-aligned, or beyond the addressable maximum; returns
a single region from base 0 when the requested size stays below the reserved
hole, and otherwise splits memory into one region below the hole and one region
starting just above it. -/
def arch_memory_regions (size : Nat) : Except ArchError (List MemoryRegion) :=
  if size = 0 ∨ size % PAGE_SIZE ≠ 0 ∨ ARCH_MEM_MAX < size then
    .error .InvalidMemorySize
  else if size ≤ MMIO_MEM_START then
    .ok [⟨0, size⟩]
  else
    .ok [⟨0, MMIO_MEM_START⟩,
         ⟨MMIO_MEM_START + MMIO_MEM_SIZE, size - MMIO_MEM_START⟩]

/-- Total number of bytes covered by a region list. -/
def totalSize : List MemoryRegion → Nat
  | [] => 0
  | r :: rest => r.size + totalSize rest

/-- C3: for every page-aligned, non-zero, in-range requested size the planner
returns a region list sorted strictly ascending by start, mutually
non-overlapping, and whose sizes sum exactly to the requested size. -/
theorem arch_memory_regions_spec (size : Nat) (h0 : 0 < size)
    (hal : size % PAGE_SIZE = 0) (hmax : size ≤ ARCH_MEM_MAX) :
    ∃ regions, arch_memory_regions size = .ok regions ∧
      regions.Pairwise (fun a b => a.start < b.start) ∧
      regions.Pairwise (fun a b => a.start + a.size ≤ b.start) ∧
      totalSize regions = size := by
  have hcond : ¬ (size = 0 ∨ size % PAGE_SIZE ≠ 0 ∨ ARCH_MEM_MAX < size) := by
    push_neg
    exact ⟨by omega, hal, by omega⟩
  rw [arch_memory_regions, if_neg hcond]
  by_cases hsplit : size ≤ MMIO_MEM_START
  · rw [if_pos hsplit]
    refine ⟨_, rfl, by simp, by simp, ?_⟩
    show size + 0 = size
    omega
  · rw [if_neg hsplit]
    refine ⟨_, rfl, ?_, ?_, ?_⟩
    · refine List.Pairwise.cons (fun r hr => ?_) (by simp)
      rw [List.mem_singleton] at hr
      subst hr
      norm_num [MMIO_MEM_START, MMIO_MEM_SIZE, MiB]
    · refine List.Pairwise.cons (fun r hr => ?_) (by simp)
      rw [List.mem_singleton] at hr
      subst hr
      norm_num [MMIO_MEM_START, MMIO_MEM_SIZE, MiB]
    · show MMIO_MEM_START + (size - MMIO_MEM_START + 0) = size
      omega

/-- Witness for C3 at a concrete 4096 MiB request, which spans the hole. -/
theorem arch_memory_regions_spec_witness :
    0 < 4096 * MiB ∧ 4096 * MiB % PAGE_SIZE = 0 ∧ 4096 * MiB ≤ ARCH_MEM_MAX ∧
    (∃ regions, arch_memory_regions (4096 * MiB) = .ok regions ∧
      regions.Pairwise (fun a b => a.start < b.start) ∧
      regions.Pairwise (fun a b => a.start + a.size ≤ b.start) ∧
      totalSize regions = 4096 * MiB) :=
  ⟨by norm_num [MiB],
   by norm_num [MiB, PAGE_SIZE],
   by norm_num [MiB, ARCH_MEM_MAX, MMIO_MEM_SIZE],
   arch_memory_regions_spec (4096 * MiB) (by norm_num [MiB])
     (by norm_num [MiB, PAGE_SIZE])
     (by norm_num [MiB, ARCH_MEM_MAX, MMIO_MEM_SIZE])⟩

/-- Modelled from the spec: the maximum accepted kernel command line size
(CMDLINE_MAX_SIZE is re-exported from the architecture layout module, whose
source is not given; one page is used as the modelled value). -/
def CMDLINE_MAX_SIZE : Nat := 4096

/-- Modelled from the spec: the Boot Protocol Configurator validates that the
supplied command line does not exceed CMDLINE_MAX_SIZE and fails with
CmdlineTooLarge otherwise. -/
def validate_cmdline (cmdline : List Char) : Except ArchError Unit :=
  if CMDLINE_MAX_SIZE < cmdline.length then .error .CmdlineTooLarge
  else .ok ()

/-- C5: a command line of length exactly CMDLINE_MAX_SIZE is accepted, and a
command line of length CMDLINE_MAX_SIZE + 1 fails with CmdlineTooLarge. -/
theorem validate_cmdline_boundary (cmdline : List Char) :
    (cmdline.length = CMDLINE_MAX_SIZE →
      validate_cmdline cmdline = .ok ()) ∧
    (cmdline.length = CMDLINE_MAX_SIZE + 1 →
      validate_cmdline cmdline = .error .CmdlineTooLarge) := by
  constructor
  · intro h
    rw [validate_cmdline, if_neg (by omega)]
  · intro h
    rw [validate_cmdline, if_pos (by omega)]

/-- Witness for C5 at concrete command lines of the two boundary lengths. -/
theorem validate_cmdline_boundary_witness :
    validate_cmdline (List.replicate CMDLINE_MAX_SIZE 'a') = .ok () ∧
    validate_cmdline (List.replicate (CMDLINE_MAX_SIZE + 1) 'a') =
      .error .CmdlineTooLarge :=
  ⟨(validate_cmdline_boundary _).1 (by simp),
   (validate_cmdline_boundary _).2 (by simp)⟩

/-- Modelled from the spec: first IRQ line available to devices (IRQ_BASE is
re-exported from the architecture layout module, whose source is not given). -/
def IRQ_BASE : Nat := 5

/-- Modelled from the spec: last IRQ line available to devices. -/
def IRQ_MAX : Nat := 23

/-- Modelled from the spec: number of lines inside the IRQ range reserved for
non-device platform functions; the modelled architecture reserves none, its
platform lines lying below IRQ_BASE. -/
def RESERVED_IRQ_COUNT : Nat := 0

/-- Size of the device IRQ pool: IRQ_MAX - IRQ_BASE + 1 minus reserved lines. -/
def IRQ_POOL_SIZE : Nat := IRQ_MAX - IRQ_BASE + 1 - RESERVED_IRQ_COUNT

/-- Modelled from the spec: fixed size of one virtio transport MMIO window,
constant across all virtio device instances. -/
def MMIO_LEN : Nat := 4096

/-- One device resource binding: the MMIO window start and the IRQ line. -/
structure DeviceResources where
  mmio_start : Nat
  irq : Nat
deriving DecidableEq, Repr

/-- Allocator state: next free MMIO window start and next free IRQ line. -/
structure AllocatorState where
  next_mmio : Nat
  next_irq : Nat
deriving DecidableEq, Repr

/-- Fresh allocator state for a newly created VM. -/
def AllocatorState.init : AllocatorState :=
  ⟨MMIO_MEM_START, IRQ_BASE⟩

/-- Modelled from the spec: the MMIO and interrupt allocator hands out
fixed-size address windows in ascending order and IRQ lines in ascending
order, failing with ResourceExhausted once either pool is depleted. -/
def allocate (s : AllocatorState) :
    Except ArchError (DeviceResources × AllocatorState) :=
  if IRQ_MAX < s.next_irq then .error .ResourceExhausted
  else if MMIO_MEM_START + MMIO_MEM_SIZE < s.next_mmio + MMIO_LEN then
    .error .ResourceExhausted
  else
    .ok (⟨s.next_mmio, s.next_irq⟩, ⟨s.next_mmio + MMIO_LEN, s.next_irq + 1⟩)

/-- Allocate resources for n virtio devices in sequence from the fresh state,
collecting the bindings in attachment order. -/
def allocN : Nat → Except ArchError (List DeviceResources × AllocatorState)
  | 0 => .ok ([], .init)
  | n + 1 =>
    match allocN n with
    | .error e => .error e
    | .ok (l, s) =>
      match allocate s with
      | .error e => .error e
      | .ok (a, s2) => .ok (l ++ [a], s2)

/-- Resources the allocator assigns to the i-th attached device. -/
def allocAt (i : Nat) : DeviceResources :=
  ⟨MMIO_MEM_START + i * MMIO_LEN, IRQ_BASE + i⟩

/-- Allocator state after n successful allocations. -/
def stateAfter (n : Nat) : AllocatorState :=
  ⟨MMIO_MEM_START + n * MMIO_LEN, IRQ_BASE + n⟩

/-- Closed form: as long as the IRQ pool is not exceeded, n sequential
allocations succeed and produce the bindings of allocAt in order. -/
theorem allocN_closed (n : Nat) (h : n ≤ IRQ_POOL_SIZE) :
    allocN n = .ok ((List.range n).map allocAt, stateAfter n) := by
  induction n with
  | zero =>
      simp [allocN, AllocatorState.init, stateAfter]
  | succ k ih =>
      have hk : k ≤ IRQ_POOL_SIZE := Nat.le_of_succ_le h
      have hb : k + 1 ≤ 19 := by
        simpa [IRQ_POOL_SIZE, IRQ_MAX, IRQ_BASE, RESERVED_IRQ_COUNT] using h
      have hirq : ¬ IRQ_MAX < (stateAfter k).next_irq := by
        simp only [stateAfter, IRQ_MAX, IRQ_BASE]
        omega
      have hmmio :
          ¬ MMIO_MEM_START + MMIO_MEM_SIZE < (stateAfter k).next_mmio + MMIO_LEN := by
        simp only [stateAfter, MMIO_MEM_SIZE, MMIO_LEN, MiB]
        omega
      simp only [allocN, ih hk]
      rw [allocate, if_neg hirq, if_neg hmmio]
      simp only [List.range_succ, List.map_append, List.map_cons, List.map_nil,
        Except.ok.injEq, Prod.mk.injEq]
      refine ⟨rfl, ?_⟩
      simp only [stateAfter, AllocatorState.mk.injEq, MMIO_LEN]
      omega

/-- C4: allocating N virtio devices in sequence, for N up to the IRQ pool size
IRQ_MAX - IRQ_BASE + 1 minus reserved lines, yields N bindings whose MMIO
windows are pairwise disjoint and strictly ascending and whose IRQ lines are
strictly ascending (hence pairwise distinct); and once the pool is exhausted
the next allocation fails with ResourceExhausted. -/
theorem allocate_sequence_spec (N : Nat) (h : N ≤ IRQ_POOL_SIZE) :
    ∃ l s, allocN N = .ok (l, s) ∧ l.length = N ∧
      l.Pairwise (fun a b =>
        a.mmio_start < b.mmio_start ∧
        a.mmio_start + MMIO_LEN ≤ b.mmio_start ∧
        a.irq < b.irq) ∧
      (N = IRQ_POOL_SIZE → allocate s = .error .ResourceExhausted) := by
  refine ⟨_, _, allocN_closed N h, by simp, ?_, ?_⟩
  · rw [List.pairwise_map]
    refine (List.pairwise_lt_range N).imp ?_
    intro a b hab
    simp only [allocAt, MMIO_LEN]
    refine ⟨?_, ?_, ?_⟩ <;> omega
  · intro hN
    subst hN
    rw [allocate, if_pos ?_]
    simp only [stateAfter, IRQ_POOL_SIZE, IRQ_MAX, IRQ_BASE, RESERVED_IRQ_COUNT]
    omega

/-- Witness for C4 at the full pool size, exhibiting the exhaustion of the
allocator on the next request. -/
theorem allocate_sequence_spec_witness :
    ∃ l s, allocN IRQ_POOL_SIZE = .ok (l, s) ∧ l.length = IRQ_POOL_SIZE ∧
      l.Pairwise (fun a b =>
        a.mmio_start < b.mmio_start ∧
        a.mmio_start + MMIO_LEN ≤ b.mmio_start ∧
        a.irq < b.irq) ∧
      (IRQ_POOL_SIZE = IRQ_POOL_SIZE → allocate s = .error .ResourceExhausted) :=
  allocate_sequence_spec IRQ_POOL_SIZE (Nat.le_refl _)

end Arch
